import Mathlib

/-!
# CareerPilot front end: chat widget and roadmap generator

A shallow embedding of `frontend/js/chatbot.js` and `frontend/js/roadmap.js`.

* JavaScript values that `response.json()` can produce are the type `JsValue`.
* The page is an explicit record (input value, children of the container, requests issued).
* The two `await`s of each handler are answered by a `FetchOutcome` supplied by the
  environment; a handler run is the function from the page before the event and that
  outcome to the page after the handler has run to completion.
* Exceptions are values of `JsError`; `try`/`catch` is a `match` on `Except`.
* A container holds the markup strings assigned to `innerHTML` and the elements appended to
  it. `domOfContainer` reads such a container as a tree, through a tokenizer and tree builder
  for the fragment of HTML the page's markup is written in (text, `div`, `p`, `h3`, `strong`,
  a `class` attribute); markup outside that fragment has no tree in the model.
-/

namespace CareerPilot

/-! ## JavaScript values -/

/-- Exceptions a handler can meet. -/
inductive JsError where
  | typeError
  | syntaxError
  | networkError
  | error (message : String)
  deriving DecidableEq, Repr

/-- A Number value. The scripts use a Number in one way only, converting it to a string, so
a Number is given by the string that `Number::toString` produces for it (`1`, `2.5`,
`1e+21`); the conversion algorithm itself belongs to the platform. -/
structure JsNumber where
  text : String
  deriving DecidableEq, Repr

/-- Values produced by `JSON.parse`, together with `undefined` (the value of a missing
property). An object is its list of own properties (first match wins on lookup). -/
inductive JsValue where
  | undefined
  | null
  | bool (b : Bool)
  | num (n : JsNumber)
  | str (s : String)
  | arr (items : List JsValue)
  | obj (props : List (String × JsValue))

/-- Own-property lookup in a property list. -/
def lookupProp (key : String) : List (String × JsValue) → Option JsValue
  | [] => none
  | (k, v) :: rest => if k = key then some v else lookupProp key rest

/-- Property read `v.key` for a name that no built-in prototype defines (`reply`, `roadmap`,
`step`, `title`, `learn`, `skills`, `tools`, `outcome`): a TypeError on `undefined` and
`null`, the own property of an object, `undefined` otherwise. -/
def getProp (v : JsValue) (key : String) : Except JsError JsValue :=
  match v with
  | .undefined => .error .typeError
  | .null => .error .typeError
  | .obj props =>
    match lookupProp key props with
    | some x => .ok x
    | none => .ok .undefined
  | _ => .ok .undefined

/-- Does the property list define `key`? -/
def hasProp (key : String) : List (String × JsValue) → Bool
  | [] => false
  | (k, _) :: rest => if k = key then true else hasProp key rest

/-- Concatenation of already converted items with a separator (`Array.prototype.join`). -/
def joinStrings (sep : String) : List String → String
  | [] => ""
  | [s] => s
  | s :: rest => s ++ sep ++ joinStrings sep rest

mutual
/-- The abstract operation `ToString`, as used by a template literal `${v}`. An object
parsed from JSON converts to `[object Object]` unless it has an own property `toString`
(which is then not callable, and `OrdinaryToPrimitive` ends in a TypeError). An array
converts through `join(",")`. -/
def toStr : JsValue → Except JsError String
  | .undefined => .ok "undefined"
  | .null => .ok "null"
  | .bool true => .ok "true"
  | .bool false => .ok "false"
  | .num n => .ok n.text
  | .str s => .ok s
  | .arr items =>
    match joinItems items with
    | .ok parts => .ok (joinStrings "," parts)
    | .error e => .error e
  | .obj props => if hasProp "toString" props then .error .typeError else .ok "[object Object]"
/-- The per-element conversion of `Array.prototype.join`: `undefined` and `null` give the
empty string, every other element its `ToString`. -/
def joinItems : List JsValue → Except JsError (List String)
  | [] => .ok []
  | .undefined :: rest =>
    match joinItems rest with
    | .ok parts => .ok ("" :: parts)
    | .error e => .error e
  | .null :: rest =>
    match joinItems rest with
    | .ok parts => .ok ("" :: parts)
    | .error e => .error e
  | v :: rest =>
    match toStr v with
    | .error e => .error e
    | .ok s =>
      match joinItems rest with
      | .ok parts => .ok (s :: parts)
      | .error e => .error e
end

/-- Method call `v.join(sep)` on a value read from parsed JSON: only an array has a callable
`join`; on `undefined`/`null` the property read throws, and on any other value `join` is
missing or not a function. -/
def callJoin (v : JsValue) (sep : String) : Except JsError String :=
  match v with
  | .arr items =>
    match joinItems items with
    | .ok parts => .ok (joinStrings sep parts)
    | .error e => .error e
  | _ => .error .typeError

/-- Code points removed by `String.prototype.trim`: WhiteSpace and LineTerminator. -/
def isJsWhiteSpace (c : Char) : Bool :=
  let n := c.toNat
  n = 0x09 || n = 0x0A || n = 0x0B || n = 0x0C || n = 0x0D || n = 0x20 || n = 0xA0 ||
  n = 0x1680 || (0x2000 ≤ n && n ≤ 0x200A) || n = 0x2028 || n = 0x2029 || n = 0x202F ||
  n = 0x205F || n = 0x3000 || n = 0xFEFF

/-- The method `String.prototype.trim` on a list of characters. -/
def trimChars (cs : List Char) : List Char :=
  ((cs.dropWhile isJsWhiteSpace).reverse.dropWhile isJsWhiteSpace).reverse

/-- The method `String.prototype.trim`. -/
def jsTrim (s : String) : String :=
  String.mk (trimChars s.data)

/-! ## DOM and network -/

/-- An element made by `document.createElement`, with the two properties the scripts set.
`innerHTML` is the markup string assigned to it. -/
structure Element where
  tag : String
  className : String
  innerHTML : String
  deriving DecidableEq, Repr

/-- A child of a container: either the nodes parsed from a markup string assigned to the
container's `innerHTML`, or an element appended with `appendChild`. -/
inductive Node where
  | html (markup : String)
  | element (e : Element)
  deriving DecidableEq, Repr

/-- A call of `fetch`. `body` is the value handed to `JSON.stringify`. -/
structure Request where
  url : String
  method : String
  headers : List (String × String)
  body : JsValue

/-- What `response.json()` does: reject (the body is not JSON) or resolve with the parsed
value. -/
inductive BodyOutcome where
  | malformed
  | parsed (data : JsValue)

/-- A response the `fetch` promise resolves with. -/
structure Response where
  status : Nat
  body : BodyOutcome

/-- The property `response.ok`: the status is in the range 200 to 299. -/
def Response.ok (r : Response) : Bool :=
  200 ≤ r.status && r.status ≤ 299

/-- What the environment answers to a call of `fetch`: the promise rejects, or resolves
with a response. -/
inductive FetchOutcome where
  | rejected
  | resolved (r : Response)

/-! ## chatbot.js -/

/-- The chat page: `chatInput.value`, the children of `chatMessages`, whether
`chatMessages` is scrolled to its end, and the network activity so far. -/
structure ChatPage where
  chatInputValue : String
  chatMessages : List Element
  scrolledToEnd : Bool
  requests : List Request
  bodyReads : Nat

/-- The fixed text of the `catch` branch of `sendMessage`. -/
def chatFallback : String := "Sorry, I am not able to respond right now."

/-- The `fetch` call of `sendMessage` (lines 22-30). -/
def chatRequest (message : String) : Request :=
  { url := "http://127.0.0.1:5000/chat"
    method := "POST"
    headers := [("Content-Type", "application/json")]
    body := .obj [("message", .str message)] }

/-- Function `appendMessage` (lines 45-51). The template literal converts `text` with
`ToString`; when that throws nothing has been appended yet. -/
def appendMessage (sender : String) (text : JsValue) (className : String) (p : ChatPage) :
    Except JsError ChatPage :=
  match toStr text with
  | .error e => .error e
  | .ok t =>
    .ok { p with
      chatMessages := p.chatMessages ++
        [{ tag := "div"
           className := "chat-message " ++ className
           innerHTML := "<strong>" ++ sender ++ ":</strong> " ++ t }]
      scrolledToEnd := true }

/-- Where a run of `sendMessage` stands when it first gives up control: it has returned, or
it has called `fetch` and awaits the answer. -/
inductive ChatSync where
  | returned (result : Except JsError Unit) (p : ChatPage)
  | awaiting (message : String) (req : Request) (p : ChatPage)

/-- Lines 13-30 of `sendMessage`: the synchronous part, up to and including the call of
`fetch`. -/
def sendMessageSync (p : ChatPage) : ChatSync :=
  let message := jsTrim p.chatInputValue
  if message = "" then .returned (.ok ()) p
  else
    match appendMessage "You" (.str message) "chat-user" p with
    | .error e => .returned (.error e) p
    | .ok p1 =>
      let p2 := { p1 with chatInputValue := "" }
      let req := chatRequest message
      .awaiting message req { p2 with requests := p2.requests ++ [req] }

/-- Lines 22-34 of `sendMessage` after the call of `fetch`: the rest of the `try` block.
Gives the exception thrown, if any, and the page at that point. -/
def sendMessageTry (o : FetchOutcome) (p : ChatPage) : Option JsError × ChatPage :=
  match o with
  | .rejected => (some .networkError, p)
  | .resolved r =>
    let p1 := { p with bodyReads := p.bodyReads + 1 }
    match r.body with
    | .malformed => (some .syntaxError, p1)
    | .parsed data =>
      match getProp data "reply" with
      | .error e => (some e, p1)
      | .ok reply =>
        match appendMessage "AI" reply "chat-bot" p1 with
        | .error e => (some e, p1)
        | .ok p2 => (none, p2)

/-- Lines 21-42 of `sendMessage` after the call of `fetch`: the `try` block and its
`catch`. -/
def sendMessageResume (o : FetchOutcome) (p : ChatPage) : Except JsError Unit × ChatPage :=
  match sendMessageTry o p with
  | (none, p1) => (.ok (), p1)
  | (some _, p1) =>
    match appendMessage "AI" (.str chatFallback) "chat-bot" p1 with
    | .error e => (.error e, p1)
    | .ok p2 => (.ok (), p2)

/-- Function `sendMessage` (lines 12-43), run to completion with the environment answering
`o` to the request: the completion of the handler and the page it leaves. -/
def sendMessage (o : FetchOutcome) (p : ChatPage) : Except JsError Unit × ChatPage :=
  match sendMessageSync p with
  | .returned result p1 => (result, p1)
  | .awaiting _ _ p1 => sendMessageResume o p1

/-- The `keypress` listener of `chatInput` (lines 6-10). -/
def onKeypress (key : String) (o : FetchOutcome) (p : ChatPage) : Except JsError Unit × ChatPage :=
  if key = "Enter" then sendMessage o p else (.ok (), p)

/-! ## roadmap.js -/

/-- The roadmap page: the values of the four form controls, the children of
`roadmapContainer`, and the network activity so far. -/
structure RoadmapPage where
  nameValue : String
  branchValue : String
  yearValue : String
  interestValue : String
  roadmapContainer : List Node
  requests : List Request
  bodyReads : Nat

/-- Markup shown when validation fails (lines 12-13). -/
def fillAllFields : String := "<p class='placeholder'>Please fill all fields.</p>"

/-- Markup shown while the request is in flight (lines 17-18). -/
def generatingRoadmap : String := "<p class='placeholder'>Generating roadmap...</p>"

/-- Markup shown by the `catch` branch (lines 59-60). -/
def noRoadmapAvailable : String :=
  "<p class='placeholder'>No roadmap available for selected options.</p>"

/-- The greeting markup (line 41). -/
def greeting (name : String) : String :=
  "<p><strong>Hey " ++ name ++ ", here’s your roadmap 👇</strong></p>"

/-- The `fetch` call of the click handler (lines 21-31). -/
def roadmapRequest (branch year interest : String) : Request :=
  { url := "http://127.0.0.1:5000/get-roadmap"
    method := "POST"
    headers := [("Content-Type", "application/json")]
    body := .obj [("branch", .str branch), ("year", .str year), ("interest", .str interest)] }

/-- The template literal of lines 47-53, given its six converted substitutions. -/
def stepMarkup (step title learn skills tools outcome : String) : String :=
  "\n        <h3>Step " ++ step ++ ": " ++ title ++ "</h3>" ++
  "\n        <p><strong>What to learn:</strong> " ++ learn ++ "</p>" ++
  "\n        <p><strong>Skills:</strong> " ++ skills ++ "</p>" ++
  "\n        <p><strong>Tools:</strong> " ++ tools ++ "</p>" ++
  "\n        <p><strong>Outcome:</strong> " ++ outcome ++ "</p>" ++
  "\n      "

/-- A substitution `${step.key}` of the template literal: read the property, convert it
with `ToString`. -/
def textField (step : JsValue) (key : String) : Except JsError String :=
  match getProp step key with
  | .error e => .error e
  | .ok v => toStr v

/-- A substitution `${step.key.join(", ")}` of the template literal. -/
def joinField (step : JsValue) (key : String) : Except JsError String :=
  match getProp step key with
  | .error e => .error e
  | .ok v => callJoin v ", "

/-- Lines 44-53: the element built by the `forEach` callback for one step, or the
exception thrown while the template literal is evaluated. -/
def renderStep (step : JsValue) : Except JsError Element := do
  let number ← textField step "step"
  let title ← textField step "title"
  let learn ← joinField step "learn"
  let skills ← joinField step "skills"
  let tools ← joinField step "tools"
  let outcome ← textField step "outcome"
  pure { tag := "div", className := "roadmap-step",
         innerHTML := stepMarkup number title learn skills tools outcome }

/-- Lines 43-56: `roadmap.forEach` over the items of an array. Each callback run appends
its element (line 55); an exception stops the loop and leaves what was appended so far. -/
def forEachStep : List JsValue → RoadmapPage → Option JsError × RoadmapPage
  | [], p => (none, p)
  | step :: rest, p =>
    match renderStep step with
    | .error e => (some e, p)
    | .ok stepDiv =>
      forEachStep rest { p with roadmapContainer := p.roadmapContainer ++ [.element stepDiv] }

/-- Where a run of the click handler stands when it first gives up control. -/
inductive RoadmapSync where
  | returned (p : RoadmapPage)
  | awaiting (name : String) (req : Request) (p : RoadmapPage)

/-- Lines 5-31 of the click handler: the synchronous part, up to and including the call of
`fetch`. -/
def generateSync (p : RoadmapPage) : RoadmapSync :=
  let name := jsTrim p.nameValue
  let branch := p.branchValue
  let year := p.yearValue
  let interest := p.interestValue
  if name = "" || branch = "" || year = "" || interest = "" then
    .returned { p with roadmapContainer := [.html fillAllFields] }
  else
    let p1 := { p with roadmapContainer := [.html generatingRoadmap] }
    let req := roadmapRequest branch year interest
    .awaiting name req { p1 with requests := p1.requests ++ [req] }

/-- Lines 21-56 of the click handler after the call of `fetch`: the rest of the `try`
block. Gives the exception thrown, if any, and the page at that point. -/
def generateTry (name : String) (o : FetchOutcome) (p : RoadmapPage) :
    Option JsError × RoadmapPage :=
  match o with
  | .rejected => (some .networkError, p)
  | .resolved response =>
    if !response.ok then (some (.error "No roadmap found"), p)
    else
      let p1 := { p with bodyReads := p.bodyReads + 1 }
      match response.body with
      | .malformed => (some .syntaxError, p1)
      | .parsed data =>
        match getProp data "roadmap" with
        | .error e => (some e, p1)
        | .ok roadmap =>
          let p2 := { p1 with roadmapContainer := [.html (greeting name)] }
          match roadmap with
          | .arr steps => forEachStep steps p2
          | _ => (some .typeError, p2)

/-- Lines 20-61 of the click handler after the call of `fetch`: the `try` block and its
`catch`. -/
def generateResume (name : String) (o : FetchOutcome) (p : RoadmapPage) :
    Except JsError Unit × RoadmapPage :=
  match generateTry name o p with
  | (none, p1) => (.ok (), p1)
  | (some _, p1) => (.ok (), { p1 with roadmapContainer := [.html noRoadmapAvailable] })

/-- The click handler of `generateBtn` (lines 4-62), run to completion with the environment
answering `o` to the request: the completion of the handler and the page it leaves. -/
def generateClick (o : FetchOutcome) (p : RoadmapPage) : Except JsError Unit × RoadmapPage :=
  match generateSync p with
  | .returned p1 => (.ok (), p1)
  | .awaiting name _ p1 => generateResume name o p1

/-! ## Parsed markup -/

/-- A node of the tree the HTML parser builds from markup: a text node, or an element with
its tag, the value of its `class` attribute and its children. -/
inductive Dom where
  | text (data : String)
  | elem (tag : String) (className : String) (children : List Dom)

/-- The tag and class of an element node. -/
def Dom.tagAndClass : Dom → Option (String × String)
  | .text _ => none
  | .elem tag className _ => some (tag, className)

/-- Tokens of the HTML tokenizer that the markup of this page can hold. -/
inductive HtmlToken where
  | text (data : String)
  | startTag (tag : String) (className : String)
  | endTag (tag : String)

/-- Characters that the tokenizer copies into a text node as they are: not the start of a
tag or of a character reference, and neither NUL nor a carriage return. -/
def textChar (c : Char) : Bool :=
  c.toNat ≠ 60 && c.toNat ≠ 38 && c.toNat ≠ 0 && c.toNat ≠ 13

/-- Characters accepted in the value of a `class` attribute. -/
def classChar (c : Char) : Bool :=
  c.isAlphanum || c = '-' || c = '_' || c = ' '

/-- The element names of the page's markup. -/
def tagNames : List String := ["div", "p", "h3", "strong"]

/-- The attribute part of a start tag: one `class` attribute, its value in single or in
double quotes. -/
def classAttr (attrs : List Char) : Option (List Char) :=
  match attrs with
  | ' ' :: 'c' :: 'l' :: 'a' :: 's' :: 's' :: '=' :: q :: rest =>
    if (q.toNat = 39 || q.toNat = 34) && rest.getLast? = some q && rest.dropLast.all classChar
    then some rest.dropLast else none
  | _ => none

/-- The text between `<` and `>` as a tag: an end tag `/name`, a start tag `name`, or a
start tag with a `class` attribute. Anything else is outside the modelled markup. -/
def parseTag (body : List Char) : Option HtmlToken :=
  match body with
  | '/' :: name =>
    if String.mk name ∈ tagNames then some (.endTag (String.mk name)) else none
  | _ =>
    let name := body.takeWhile (fun c => c != ' ')
    let attrs := body.dropWhile (fun c => c != ' ')
    if String.mk name ∈ tagNames then
      match attrs with
      | [] => some (.startTag (String.mk name) "")
      | _ =>
        match classAttr attrs with
        | some v => some (.startTag (String.mk name) (String.mk v))
        | none => none
    else none

/-- Close a run of text: no token for an empty run, a text token for a run of `textChar`s,
failure otherwise. -/
def emitText (acc : List Char) (rest : Option (List HtmlToken)) : Option (List HtmlToken) :=
  if acc = [] then rest
  else if acc.all textChar then
    match rest with
    | some ts => some (.text (String.mk acc) :: ts)
    | none => none
  else none

/-- The HTML tokenizer on markup made of text and simple tags. The flag tells whether the
tokenizer is inside a tag; `acc` is the text or tag read so far. `none` when the markup is
outside the modelled fragment of HTML. -/
def tokenize : Bool → List Char → List Char → Option (List HtmlToken)
  | false, acc, [] => emitText acc (some [])
  | true, _, [] => none
  | false, acc, c :: cs =>
    if c = '<' then emitText acc (tokenize true [] cs) else tokenize false (acc ++ [c]) cs
  | true, acc, c :: cs =>
    if c = '>' then
      match parseTag acc, tokenize false [] cs with
      | some t, some ts => some (t :: ts)
      | _, _ => none
    else if c = '<' then none
    else tokenize true (acc ++ [c]) cs

/-- An element of the stack of open elements, with the children it has so far. -/
structure OpenElement where
  tag : String
  className : String
  children : List Dom

/-- Nesting for which the tree builder inserts a start tag as a child of the current
element with no implied end tag and no error recovery: anything in a `div`, `strong` in a
`p` or an `h3`, only text in a `strong`. -/
def allowedChild (parent child : String) : Bool :=
  if parent = "div" then true
  else if parent = "p" || parent = "h3" then child = "strong"
  else false

/-- The tree builder on well-nested tokens: `current` is the current element, `stack` the
open elements below it. `none` when an end tag does not match the current element or the
nesting is outside `allowedChild`. -/
def buildTree : List HtmlToken → OpenElement → List OpenElement → Option (List Dom)
  | [], current, [] => some current.children
  | [], _, _ :: _ => none
  | .text d :: ts, current, stack =>
    buildTree ts { current with children := current.children ++ [.text d] } stack
  | .startTag t c :: ts, current, stack =>
    if allowedChild current.tag t then buildTree ts ⟨t, c, []⟩ (current :: stack) else none
  | .endTag _ :: _, _, [] => none
  | .endTag t :: ts, current, parent :: stack =>
    if current.tag = t then
      buildTree ts
        { parent with
          children := parent.children ++ [.elem current.tag current.className current.children] }
        stack
    else none

/-- The children that assigning `markup` to the `innerHTML` of a `div` gives it, for markup
inside the modelled fragment of HTML. -/
def parseFragment (markup : String) : Option (List Dom) :=
  match tokenize false [] markup.data with
  | some ts => buildTree ts ⟨"div", "", []⟩ []
  | none => none

/-- The nodes a child of the container stands for: the parse of the markup assigned to the
container (taken to be a `div`), or an appended `div` with the parse of its own markup. -/
def domOfNode : Node → Option (List Dom)
  | .html markup => parseFragment markup
  | .element e =>
    if e.tag = "div" then
      match parseFragment e.innerHTML with
      | some children => some [.elem e.tag e.className children]
      | none => none
    else none

/-- The children of the container as a tree. -/
def domOfContainer : List Node → Option (List Dom)
  | [] => some []
  | n :: rest =>
    match domOfNode n, domOfContainer rest with
    | some a, some b => some (a ++ b)
    | _, _ => none

/-! ## The data model of the specification -/

/-- A roadmap step as the data model describes it. -/
structure RoadmapStep where
  step : JsNumber
  title : String
  learn : List String
  skills : List String
  tools : List String
  outcome : String

/-- The value `j` is a well-formed step with the contents `s`: an object whose `step` is a
number, whose `title` and `outcome` are strings and whose `learn`, `skills` and `tools` are
lists of strings. -/
def IsStep (j : JsValue) (s : RoadmapStep) : Prop :=
  ∃ props, j = .obj props ∧
    lookupProp "step" props = some (.num s.step) ∧
    lookupProp "title" props = some (.str s.title) ∧
    lookupProp "learn" props = some (.arr (s.learn.map .str)) ∧
    lookupProp "skills" props = some (.arr (s.skills.map .str)) ∧
    lookupProp "tools" props = some (.arr (s.tools.map .str)) ∧
    lookupProp "outcome" props = some (.str s.outcome)

/-- The block the specification describes for a step: an element of class `roadmap-step`
whose markup shows the step number and title in a heading, then the three lists each joined
with `", "`, then the outcome, each under its label. -/
def stepBlock (s : RoadmapStep) : Node :=
  .element
    { tag := "div"
      className := "roadmap-step"
      innerHTML :=
        "\n        <h3>Step " ++ s.step.text ++ ": " ++ s.title ++ "</h3>" ++
        "\n        <p><strong>What to learn:</strong> " ++
          String.intercalate ", " s.learn ++ "</p>" ++
        "\n        <p><strong>Skills:</strong> " ++ String.intercalate ", " s.skills ++ "</p>" ++
        "\n        <p><strong>Tools:</strong> " ++ String.intercalate ", " s.tools ++ "</p>" ++
        "\n        <p><strong>Outcome:</strong> " ++ s.outcome ++ "</p>" ++
        "\n      " }

/-- The property `key` of `step` is not a list: reading it throws, or gives a value that is
not an array (among them `undefined`, when the property is missing). -/
def FieldNotList (step : JsValue) (key : String) : Prop :=
  ∀ items, getProp step key ≠ .ok (.arr items)

/-- The text holds no markup: every character is one the tokenizer copies into a text
node. -/
def plainText (s : String) : Bool :=
  s.data.all textChar

/-- None of the texts of a step holds markup. -/
def RoadmapStep.plain (s : RoadmapStep) : Bool :=
  plainText s.step.text && plainText s.title && s.learn.all plainText &&
  s.skills.all plainText && s.tools.all plainText && plainText s.outcome

/-- The greeting line as a tree: one paragraph holding the greeting in bold. -/
def greetingDom (name : String) : Dom :=
  .elem "p" "" [.elem "strong" "" [.text ("Hey " ++ name ++ ", here’s your roadmap 👇")]]

/-- A labelled line of a step block as a tree. -/
def labelledLine (label value : String) : Dom :=
  .elem "p" "" [.elem "strong" "" [.text label], .text (" " ++ value)]

/-- A step block as a tree: a `div` of class `roadmap-step` holding the heading with the
step number and title, then the four labelled lines. -/
def stepBlockDom (s : RoadmapStep) : Dom :=
  .elem "div" "roadmap-step"
    [ .text "\n        ",
      .elem "h3" "" [.text ("Step " ++ s.step.text ++ ": " ++ s.title)],
      .text "\n        ",
      labelledLine "What to learn:" (String.intercalate ", " s.learn),
      .text "\n        ",
      labelledLine "Skills:" (String.intercalate ", " s.skills),
      .text "\n        ",
      labelledLine "Tools:" (String.intercalate ", " s.tools),
      .text "\n        ",
      labelledLine "Outcome:" s.outcome,
      .text "\n      " ]

/-! ## Markup in pieces -/

/-- A piece of markup: a run of text, or a tag given by what stands between `<` and `>`. -/
inductive Piece where
  | txt (t : List Char)
  | tag (body : List Char)

/-- The characters of a list of pieces. -/
def markupOf : List Piece → List Char
  | [] => []
  | .txt t :: ps => t ++ markupOf ps
  | .tag body :: ps => '<' :: (body ++ '>' :: markupOf ps)

/-- The tokens of a list of pieces, with `acc` the text read so far. -/
def tokensOf : List Char → List Piece → Option (List HtmlToken)
  | acc, [] => emitText acc (some [])
  | acc, .txt t :: ps => tokensOf (acc ++ t) ps
  | acc, .tag body :: ps =>
    emitText acc
      (match parseTag body, tokensOf [] ps with
       | some t, some ts => some (t :: ts)
       | _, _ => none)

/-- The pieces are what they are called: no `<` in a run of text, no `<` or `>` in a
tag. -/
def piecesOk : List Piece → Bool
  | [] => true
  | .txt t :: ps => t.all (fun c => c != '<') && piecesOk ps
  | .tag body :: ps => body.all (fun c => c != '<' && c != '>') && piecesOk ps

/-! ## Sample inputs -/

/-- A roadmap page with a filled form and an earlier rendering in the container. -/
def samplePage : RoadmapPage :=
  { nameValue := " Asha "
    branchValue := "CSE"
    yearValue := "2"
    interestValue := "AI"
    roadmapContainer := [.html (greeting "Ravi"), .element ⟨"div", "roadmap-step", "old"⟩]
    requests := []
    bodyReads := 0 }

/-- A roadmap page whose name is whitespace only. -/
def blankNamePage : RoadmapPage :=
  { samplePage with nameValue := "   " }

/-- A well-formed step, as a JSON value. -/
def sampleStepJson : JsValue :=
  .obj [("step", .num ⟨"1"⟩), ("title", .str "Basics"),
        ("learn", .arr [.str "Python", .str "Maths"]), ("skills", .arr [.str "Coding"]),
        ("tools", .arr []), ("outcome", .str "Ready")]

/-- The contents of `sampleStepJson`. -/
def sampleStep : RoadmapStep :=
  { step := ⟨"1"⟩, title := "Basics", learn := ["Python", "Maths"], skills := ["Coding"],
    tools := [], outcome := "Ready" }

/-- A second well-formed step, with a fractional step number. -/
def secondStepJson : JsValue :=
  .obj [("title", .str "Projects"), ("step", .num ⟨"2.5"⟩), ("outcome", .str "Portfolio"),
        ("learn", .arr [.str "Git"]), ("skills", .arr [.str "Design", .str "Testing"]),
        ("tools", .arr [.str "VS Code"])]

/-- The contents of `secondStepJson`. -/
def secondStep : RoadmapStep :=
  { step := ⟨"2.5"⟩, title := "Projects", learn := ["Git"], skills := ["Design", "Testing"],
    tools := ["VS Code"], outcome := "Portfolio" }

/-- A roadmap page whose name holds markup: it closes the greeting paragraph, adds a `div`
of class `roadmap-step` and opens a new paragraph. -/
def markupNamePage : RoadmapPage :=
  { samplePage with
    nameValue := "</strong></p><div class='roadmap-step'>x</div><p><strong>" }

/-- A step whose `skills` is a string instead of a list. -/
def badStepJson : JsValue :=
  .obj [("step", .num ⟨"2"⟩), ("title", .str "Next"), ("learn", .arr [.str "ML"]),
        ("skills", .str "Coding"), ("tools", .arr []), ("outcome", .str "Done")]

/-! ## Conversions -/

theorem toStr_str (s : String) : toStr (.str s) = .ok s := by
  simp [toStr]

theorem trimChars_eq_nil_iff (cs : List Char) :
    trimChars cs = [] ↔ ∀ c ∈ cs, isJsWhiteSpace c = true := by
  unfold trimChars
  rw [List.reverse_eq_nil_iff, List.dropWhile_eq_nil_iff]
  constructor
  · intro h c hc
    by_contra hws
    have hne : cs.dropWhile isJsWhiteSpace ≠ [] := by
      intro hnil
      exact hws (List.dropWhile_eq_nil_iff.mp hnil c hc)
    obtain ⟨x, xs, hx⟩ := List.exists_cons_of_ne_nil hne
    have hhead : isJsWhiteSpace x = false := by
      have := List.head_dropWhile_not isJsWhiteSpace cs hne
      simpa [hx] using this
    have hmem : x ∈ (cs.dropWhile isJsWhiteSpace).reverse := by
      simp [hx]
    have := h x hmem
    simp [hhead] at this
  · intro h c hc
    have hc1 : c ∈ cs.dropWhile isJsWhiteSpace := List.mem_reverse.mp hc
    exact h c ((List.dropWhile_sublist _).subset hc1)

/-- A value trims to the empty string exactly when it is empty or whitespace only. -/
theorem jsTrim_eq_empty_iff (s : String) :
    jsTrim s = "" ↔ ∀ c ∈ s.data, isJsWhiteSpace c = true := by
  rw [← trimChars_eq_nil_iff]
  unfold jsTrim
  constructor
  · intro h
    have := congrArg String.data h
    simpa using this
  · intro h
    rw [h]

theorem joinItems_strs (l : List String) : joinItems (l.map .str) = .ok l := by
  induction l with
  | nil => simp [joinItems]
  | cons a rest ih => simp [joinItems, toStr, ih]

theorem intercalate_go_eq (sep : String) (rest : List String) (acc : String) :
    String.intercalate.go acc sep rest =
      acc ++ (rest.map (fun x => sep ++ x)).foldr (fun x y => x ++ y) "" := by
  induction rest generalizing acc with
  | nil => simp [String.intercalate.go]
  | cons a rest ih => simp [String.intercalate.go, ih, String.append_assoc]

theorem joinStrings_cons_eq (sep a : String) (rest : List String) :
    joinStrings sep (a :: rest) =
      a ++ (rest.map (fun x => sep ++ x)).foldr (fun x y => x ++ y) "" := by
  induction rest generalizing a with
  | nil => simp [joinStrings]
  | cons b rest ih =>
    rw [joinStrings, ih]
    simp [String.append_assoc]
    simp

/-- The join of the model is the library's `String.intercalate`. -/
theorem joinStrings_eq_intercalate (sep : String) (l : List String) :
    joinStrings sep l = String.intercalate sep l := by
  cases l with
  | nil => rfl
  | cons a rest => rw [joinStrings_cons_eq, String.intercalate, intercalate_go_eq]

theorem callJoin_strs (sep : String) (l : List String) :
    callJoin (.arr (l.map .str)) sep = .ok (String.intercalate sep l) := by
  simp [callJoin, joinItems_strs, joinStrings_eq_intercalate]

/-! ## Parsed markup: properties -/

theorem tokenize_text (t : List Char) (ht : t.all (fun c => c != '<') = true)
    (acc rest : List Char) :
    tokenize false acc (t ++ rest) = tokenize false (acc ++ t) rest := by
  induction t generalizing acc with
  | nil => simp
  | cons c t ih =>
    simp only [List.all_cons, Bool.and_eq_true, bne_iff_ne, ne_eq] at ht
    simp [tokenize, ht.1, ih ht.2]

theorem tokenize_tag_body (body : List Char)
    (hb : body.all (fun c => c != '<' && c != '>') = true) (acc rest : List Char) :
    tokenize true acc (body ++ '>' :: rest) =
      match parseTag (acc ++ body), tokenize false [] rest with
      | some t, some ts => some (t :: ts)
      | _, _ => none := by
  induction body generalizing acc with
  | nil => simp [tokenize]
  | cons c body ih =>
    simp only [List.all_cons, Bool.and_eq_true, bne_iff_ne, ne_eq] at hb
    simp [tokenize, hb.1.1, hb.1.2, ih hb.2]

theorem tokenize_pieces (ps : List Piece) (h : piecesOk ps = true) (acc : List Char) :
    tokenize false acc (markupOf ps) = tokensOf acc ps := by
  induction ps generalizing acc with
  | nil => simp [markupOf, tokensOf, tokenize]
  | cons piece ps ih =>
    cases piece with
    | txt t =>
      simp only [piecesOk, Bool.and_eq_true] at h
      simp [markupOf, tokensOf, tokenize_text t h.1, ih h.2]
    | tag body =>
      simp only [piecesOk, Bool.and_eq_true] at h
      simp [markupOf, tokensOf, tokenize, tokenize_tag_body body h.1, ih h.2]

theorem all_ne_lt_of_plain (s : String) (h : plainText s = true) :
    s.data.all (fun c => c != '<') = true := by
  unfold plainText at h
  rw [List.all_eq_true] at h ⊢
  intro c hc
  have := h c hc
  simp only [textChar, Bool.and_eq_true, decide_eq_true_eq] at this
  simp only [bne_iff_ne, ne_eq]
  rintro rfl
  exact this.1.1.1 (by decide)

theorem emitText_plain (acc : List Char) (ts : List HtmlToken) (hne : acc ≠ [])
    (h : acc.all textChar = true) :
    emitText acc (some ts) = some (.text (String.mk acc) :: ts) := by
  simp [emitText, hne, h]

theorem greeting_data (name : String) :
    (greeting name).data =
      markupOf [.tag "p".data, .tag "strong".data, .txt "Hey ".data, .txt name.data,
        .txt ", here’s your roadmap 👇".data, .tag "/strong".data, .tag "/p".data] := by
  rfl

theorem emitText_nil (rest : Option (List HtmlToken)) : emitText [] rest = rest := by
  simp [emitText]

theorem parseFragment_greeting (name : String) (h : plainText name = true) :
    parseFragment (greeting name) = some [greetingDom name] := by
  unfold parseFragment
  rw [greeting_data, tokenize_pieces _ (by simp [piecesOk, all_ne_lt_of_plain name h])]
  have hp : parseTag "p".data = some (.startTag "p" "") := by rfl
  have hs : parseTag "strong".data = some (.startTag "strong" "") := by rfl
  have hes : parseTag "/strong".data = some (.endTag "strong") := by rfl
  have hep : parseTag "/p".data = some (.endTag "p") := by rfl
  have hall : ([] ++ "Hey ".data ++ name.data ++ ", here’s your roadmap 👇".data).all textChar
      = true := by
    have hn : name.data.all textChar = true := h
    simp only [List.all_append, hn, Bool.and_eq_true, and_true, true_and]
    exact ⟨by decide, by decide⟩
  simp only [tokensOf, hp, hs, hes, hep, emitText_nil]
  rw [emitText_plain _ _ (by simp) hall]
  rfl

theorem plainText_append (a b : String) :
    plainText (a ++ b) = (plainText a && plainText b) := by
  simp [plainText, String.data_append, List.all_append]

theorem plainText_joinStrings (l : List String) (h : l.all plainText = true) :
    plainText (joinStrings ", " l) = true := by
  induction l with
  | nil => rfl
  | cons a rest ih =>
    simp only [List.all_cons, Bool.and_eq_true] at h
    cases rest with
    | nil => simpa [joinStrings] using h.1
    | cons b rest =>
      show plainText (a ++ ", " ++ joinStrings ", " (b :: rest)) = true
      rw [plainText_append, plainText_append, h.1, ih h.2]
      rfl
    
theorem plainText_intercalate (l : List String) (h : l.all plainText = true) :
    plainText (String.intercalate ", " l) = true := by
  rw [← joinStrings_eq_intercalate]
  exact plainText_joinStrings l h

set_option maxRecDepth 20000 in
/-- The markup of a step block in pieces. -/
theorem stepMarkup_data (a b c d e f : String) :
    (stepMarkup a b c d e f).data =
      markupOf [.txt "\n        ".data, .tag "h3".data, .txt "Step ".data, .txt a.data,
        .txt ": ".data, .txt b.data, .tag "/h3".data,
        .txt "\n        ".data, .tag "p".data, .tag "strong".data, .txt "What to learn:".data,
        .tag "/strong".data, .txt " ".data, .txt c.data, .tag "/p".data,
        .txt "\n        ".data, .tag "p".data, .tag "strong".data, .txt "Skills:".data,
        .tag "/strong".data, .txt " ".data, .txt d.data, .tag "/p".data,
        .txt "\n        ".data, .tag "p".data, .tag "strong".data, .txt "Tools:".data,
        .tag "/strong".data, .txt " ".data, .txt e.data, .tag "/p".data,
        .txt "\n        ".data, .tag "p".data, .tag "strong".data, .txt "Outcome:".data,
        .tag "/strong".data, .txt " ".data, .txt f.data, .tag "/p".data,
        .txt "\n      ".data] := by
  simp [stepMarkup, markupOf]

theorem parseFragment_stepMarkup (a b c d e f : String) (ha : plainText a = true)
    (hb : plainText b = true) (hc : plainText c = true) (hd : plainText d = true)
    (he : plainText e = true) (hf : plainText f = true) :
    parseFragment (stepMarkup a b c d e f) =
      some [ .text "\n        ",
        .elem "h3" "" [.text ("Step " ++ a ++ ": " ++ b)],
        .text "\n        ", labelledLine "What to learn:" c,
        .text "\n        ", labelledLine "Skills:" d,
        .text "\n        ", labelledLine "Tools:" e,
        .text "\n        ", labelledLine "Outcome:" f,
        .text "\n      " ] := by
  unfold parseFragment
  rw [stepMarkup_data, tokenize_pieces _ (by
    simp [piecesOk, all_ne_lt_of_plain _ ha, all_ne_lt_of_plain _ hb, all_ne_lt_of_plain _ hc,
      all_ne_lt_of_plain _ hd, all_ne_lt_of_plain _ he, all_ne_lt_of_plain _ hf])]
  have hp : parseTag "p".data = some (.startTag "p" "") := by rfl
  have hs : parseTag "strong".data = some (.startTag "strong" "") := by rfl
  have hh : parseTag "h3".data = some (.startTag "h3" "") := by rfl
  have hes : parseTag "/strong".data = some (.endTag "strong") := by rfl
  have hep : parseTag "/p".data = some (.endTag "p") := by rfl
  have heh : parseTag "/h3".data = some (.endTag "h3") := by rfl
  have ha1 : a.data.all textChar = true := ha
  have hb1 : b.data.all textChar = true := hb
  have hc1 : c.data.all textChar = true := hc
  have hd1 : d.data.all textChar = true := hd
  have he1 : e.data.all textChar = true := he
  have hf1 : f.data.all textChar = true := hf
  have hws : ([] ++ "\n        ".data).all textChar = true := by decide
  have hend : ([] ++ "\n      ".data).all textChar = true := by decide
  have hhead : ([] ++ "Step ".data ++ a.data ++ ": ".data ++ b.data).all textChar = true := by
    simp only [List.all_append, ha1, hb1, Bool.and_eq_true, and_true, true_and]
    exact ⟨by decide, by decide⟩
  have hl1 : ([] ++ "What to learn:".data).all textChar = true := by decide
  have hl2 : ([] ++ "Skills:".data).all textChar = true := by decide
  have hl3 : ([] ++ "Tools:".data).all textChar = true := by decide
  have hl4 : ([] ++ "Outcome:".data).all textChar = true := by decide
  have hv1 : ([] ++ " ".data ++ c.data).all textChar = true := by
    simp only [List.all_append, hc1, Bool.and_eq_true, and_true]; decide
  have hv2 : ([] ++ " ".data ++ d.data).all textChar = true := by
    simp only [List.all_append, hd1, Bool.and_eq_true, and_true]; decide
  have hv3 : ([] ++ " ".data ++ e.data).all textChar = true := by
    simp only [List.all_append, he1, Bool.and_eq_true, and_true]; decide
  have hv4 : ([] ++ " ".data ++ f.data).all textChar = true := by
    simp only [List.all_append, hf1, Bool.and_eq_true, and_true]; decide
  have e0 := fun ts => emitText_plain _ ts (by simp) hws
  have e1 := fun ts => emitText_plain _ ts (by simp) hend
  have e2 := fun ts => emitText_plain _ ts (by simp) hhead
  have e3 := fun ts => emitText_plain _ ts (by simp) hl1
  have e4 := fun ts => emitText_plain _ ts (by simp) hl2
  have e5 := fun ts => emitText_plain _ ts (by simp) hl3
  have e6 := fun ts => emitText_plain _ ts (by simp) hl4
  have e7 := fun ts => emitText_plain _ ts (by simp) hv1
  have e8 := fun ts => emitText_plain _ ts (by simp) hv2
  have e9 := fun ts => emitText_plain _ ts (by simp) hv3
  have e10 := fun ts => emitText_plain _ ts (by simp) hv4
  simp only [tokensOf, hp, hs, hh, hes, hep, heh, emitText_nil, e0, e1, e2, e3, e4, e5, e6, e7,
    e8, e9, e10]
  rfl

/-! ## chatbot.js: properties -/

theorem appendMessage_str (sender text className : String) (p : ChatPage) :
    appendMessage sender (.str text) className p =
      .ok { p with
        chatMessages := p.chatMessages ++
          [⟨"div", "chat-message " ++ className, "<strong>" ++ sender ++ ":</strong> " ++ text⟩]
        scrolledToEnd := true } := by
  simp [appendMessage, toStr]

theorem sendMessageSync_nonempty (p : ChatPage) (h : jsTrim p.chatInputValue ≠ "") :
    sendMessageSync p =
      .awaiting (jsTrim p.chatInputValue) (chatRequest (jsTrim p.chatInputValue))
        { chatInputValue := ""
          chatMessages := p.chatMessages ++
            [⟨"div", "chat-message chat-user",
              "<strong>You:</strong> " ++ jsTrim p.chatInputValue⟩]
          scrolledToEnd := true
          requests := p.requests ++ [chatRequest (jsTrim p.chatInputValue)]
          bodyReads := p.bodyReads } := by
  simp [sendMessageSync, h, appendMessage_str]

/-- The `catch` branch after a rejected `fetch`. -/
theorem sendMessageResume_rejected (p : ChatPage) :
    sendMessageResume .rejected p =
      (.ok (), { p with
        chatMessages := p.chatMessages ++
          [⟨"div", "chat-message chat-bot", "<strong>AI:</strong> " ++ chatFallback⟩]
        scrolledToEnd := true }) := by
  simp [sendMessageResume, sendMessageTry, appendMessage_str]

/-- The `catch` branch after `response.json()` rejects. -/
theorem sendMessageResume_malformed (status : Nat) (p : ChatPage) :
    sendMessageResume (.resolved ⟨status, .malformed⟩) p =
      (.ok (), { p with
        chatMessages := p.chatMessages ++
          [⟨"div", "chat-message chat-bot", "<strong>AI:</strong> " ++ chatFallback⟩]
        scrolledToEnd := true
        bodyReads := p.bodyReads + 1 }) := by
  simp [sendMessageResume, sendMessageTry, appendMessage_str]

/-- With a parsed body the bot message carries the converted `data.reply`, or the fallback
when reading or converting it throws. -/
theorem sendMessageResume_parsed (status : Nat) (data : JsValue) (p : ChatPage) :
    sendMessageResume (.resolved ⟨status, .parsed data⟩) p =
      match getProp data "reply" >>= toStr with
      | .ok t =>
        (.ok (), { p with
          chatMessages := p.chatMessages ++
            [⟨"div", "chat-message chat-bot", "<strong>AI:</strong> " ++ t⟩]
          scrolledToEnd := true
          bodyReads := p.bodyReads + 1 })
      | .error _ =>
        (.ok (), { p with
          chatMessages := p.chatMessages ++
            [⟨"div", "chat-message chat-bot", "<strong>AI:</strong> " ++ chatFallback⟩]
          scrolledToEnd := true
          bodyReads := p.bodyReads + 1 }) := by
  simp only [sendMessageResume, sendMessageTry, appendMessage_str]
  cases hr : getProp data "reply" with
  | error e => simp [bind, Except.bind]
  | ok reply =>
    simp only [appendMessage, bind, Except.bind]
    cases ht : toStr reply with
    | error e => simp
    | ok t => simp

/-- With a non-empty trimmed input a run is the rest of the handler on the page at the
`fetch` call. -/
theorem sendMessage_nonempty (o : FetchOutcome) (p : ChatPage)
    (h : jsTrim p.chatInputValue ≠ "") :
    sendMessage o p =
      sendMessageResume o
        { chatInputValue := ""
          chatMessages := p.chatMessages ++
            [⟨"div", "chat-message chat-user",
              "<strong>You:</strong> " ++ jsTrim p.chatInputValue⟩]
          scrolledToEnd := true
          requests := p.requests ++ [chatRequest (jsTrim p.chatInputValue)]
          bodyReads := p.bodyReads } := by
  rw [sendMessage, sendMessageSync_nonempty p h]

/-- C1. When the input value is empty after trimming, `sendMessage` returns at line 14:
the handler never reaches `fetch`, and the page it leaves is the page it found (same display
log, same requests, same input value), whatever the environment would have answered. -/
theorem sendMessage_empty_input (o : FetchOutcome) (p : ChatPage)
    (h : jsTrim p.chatInputValue = "") :
    sendMessageSync p = .returned (.ok ()) p ∧ sendMessage o p = (.ok (), p) := by
  simp [sendMessage, sendMessageSync, h]

theorem sendMessage_empty_input_witness :
    jsTrim " \t\n" = "" ∧
    sendMessageSync ⟨" \t\n", [⟨"div", "chat-message chat-bot", "<strong>AI:</strong> hi"⟩],
        true, [], 0⟩ =
      .returned (.ok ())
        ⟨" \t\n", [⟨"div", "chat-message chat-bot", "<strong>AI:</strong> hi"⟩], true, [], 0⟩ ∧
    sendMessage .rejected
        ⟨" \t\n", [⟨"div", "chat-message chat-bot", "<strong>AI:</strong> hi"⟩], true, [], 0⟩ =
      (.ok (),
        ⟨" \t\n", [⟨"div", "chat-message chat-bot", "<strong>AI:</strong> hi"⟩], true, [], 0⟩) :=
  ⟨by decide,
   sendMessage_empty_input .rejected
     ⟨" \t\n", [⟨"div", "chat-message chat-bot", "<strong>AI:</strong> hi"⟩], true, [], 0⟩
     (by decide)⟩

/-- C2. When the trimmed input `m` is non-empty, `sendMessage` reaches its one `fetch` call
with the display log equal to the prior log followed by the user message (class
`chat-user`, sender `You`, text `m`) and with the input value cleared; that call is the
only request of the run, whatever the environment answers. -/
theorem sendMessage_optimistic_display (p : ChatPage) (h : jsTrim p.chatInputValue ≠ "") :
    sendMessageSync p =
      .awaiting (jsTrim p.chatInputValue)
        ⟨"http://127.0.0.1:5000/chat", "POST", [("Content-Type", "application/json")],
          .obj [("message", .str (jsTrim p.chatInputValue))]⟩
        { chatInputValue := ""
          chatMessages := p.chatMessages ++
            [⟨"div", "chat-message chat-user",
              "<strong>You:</strong> " ++ jsTrim p.chatInputValue⟩]
          scrolledToEnd := true
          requests := p.requests ++ [chatRequest (jsTrim p.chatInputValue)]
          bodyReads := p.bodyReads } ∧
    ∀ o, (sendMessage o p).2.requests = p.requests ++ [chatRequest (jsTrim p.chatInputValue)] := by
  refine ⟨by rw [sendMessageSync_nonempty p h]; rfl, fun o => ?_⟩
  rw [sendMessage, sendMessageSync_nonempty p h]
  cases o with
  | rejected => simp [sendMessageResume_rejected]
  | resolved r =>
    obtain ⟨status, body⟩ := r
    cases body with
    | malformed => simp [sendMessageResume_malformed]
    | parsed data =>
      simp only [sendMessageResume_parsed]
      cases getProp data "reply" >>= toStr <;> rfl

theorem sendMessage_optimistic_display_witness :
    jsTrim (ChatPage.mk " hello " [] false [] 0).chatInputValue ≠ "" ∧
    (sendMessageSync (ChatPage.mk " hello " [] false [] 0) =
      .awaiting (jsTrim (ChatPage.mk " hello " [] false [] 0).chatInputValue)
        ⟨"http://127.0.0.1:5000/chat", "POST", [("Content-Type", "application/json")],
          .obj [("message", .str (jsTrim (ChatPage.mk " hello " [] false [] 0).chatInputValue))]⟩
        { chatInputValue := ""
          chatMessages := (ChatPage.mk " hello " [] false [] 0).chatMessages ++
            [⟨"div", "chat-message chat-user",
              "<strong>You:</strong> " ++ jsTrim (ChatPage.mk " hello " [] false [] 0).chatInputValue⟩]
          scrolledToEnd := true
          requests := (ChatPage.mk " hello " [] false [] 0).requests ++
            [chatRequest (jsTrim (ChatPage.mk " hello " [] false [] 0).chatInputValue)]
          bodyReads := (ChatPage.mk " hello " [] false [] 0).bodyReads } ∧
     ∀ o, (sendMessage o (ChatPage.mk " hello " [] false [] 0)).2.requests =
       (ChatPage.mk " hello " [] false [] 0).requests ++
         [chatRequest (jsTrim (ChatPage.mk " hello " [] false [] 0).chatInputValue)]) :=
  ⟨by decide, sendMessage_optimistic_display (ChatPage.mk " hello " [] false [] 0) (by decide)⟩

/-- C3. When the trimmed input `m` is non-empty and the response body parses to an object
whose `reply` is the string `X`, the run ends normally and the display log is the prior log,
then the user message `m`, then one bot message (class `chat-bot`, sender `AI`) with the
text `X`; no fallback message is added and the prior messages are untouched. -/
theorem sendMessage_reply_displayed (p : ChatPage) (status : Nat) (X : String)
    (h : jsTrim p.chatInputValue ≠ "") :
    sendMessage (.resolved ⟨status, .parsed (.obj [("reply", .str X)])⟩) p =
      (.ok (),
        { chatInputValue := ""
          chatMessages := p.chatMessages ++
            [⟨"div", "chat-message chat-user",
              "<strong>You:</strong> " ++ jsTrim p.chatInputValue⟩,
             ⟨"div", "chat-message chat-bot", "<strong>AI:</strong> " ++ X⟩]
          scrolledToEnd := true
          requests := p.requests ++ [chatRequest (jsTrim p.chatInputValue)]
          bodyReads := p.bodyReads + 1 }) := by
  rw [sendMessage_nonempty _ p h, sendMessageResume_parsed]
  simp [getProp, lookupProp, toStr, bind, Except.bind]

theorem sendMessage_reply_displayed_witness :
    jsTrim (ChatPage.mk "hi there" [] false [] 0).chatInputValue ≠ "" ∧
    sendMessage (.resolved ⟨200, .parsed (.obj [("reply", .str "<b>Hello</b>")])⟩)
        (ChatPage.mk "hi there" [] false [] 0) =
      (.ok (),
        { chatInputValue := ""
          chatMessages := (ChatPage.mk "hi there" [] false [] 0).chatMessages ++
            [⟨"div", "chat-message chat-user",
               "<strong>You:</strong> " ++ jsTrim (ChatPage.mk "hi there" [] false [] 0).chatInputValue⟩,
             ⟨"div", "chat-message chat-bot", "<strong>AI:</strong> " ++ "<b>Hello</b>"⟩]
          scrolledToEnd := true
          requests := (ChatPage.mk "hi there" [] false [] 0).requests ++
            [chatRequest (jsTrim (ChatPage.mk "hi there" [] false [] 0).chatInputValue)]
          bodyReads := (ChatPage.mk "hi there" [] false [] 0).bodyReads + 1 }) :=
  ⟨by decide,
   sendMessage_reply_displayed (ChatPage.mk "hi there" [] false [] 0) 200 "<b>Hello</b>"
     (by decide)⟩

/-- C4. When the trimmed input `m` is non-empty and the request fails (`fetch` rejects, or
`response.json()` rejects because the body is not JSON, or reading and converting
`data.reply` throws), the run ends normally (no exception escapes) and the display log is the
prior log, then the user message `m`, then one bot message with the fixed fallback text. -/
theorem sendMessage_failure_fallback (o : FetchOutcome) (p : ChatPage)
    (h : jsTrim p.chatInputValue ≠ "")
    (hfail : o = .rejected ∨ (∃ status, o = .resolved ⟨status, .malformed⟩) ∨
      ∃ status data e, o = .resolved ⟨status, .parsed data⟩ ∧
        (getProp data "reply" >>= toStr) = .error e) :
    (sendMessage o p).1 = .ok () ∧
    (sendMessage o p).2.chatMessages = p.chatMessages ++
      [⟨"div", "chat-message chat-user",
         "<strong>You:</strong> " ++ jsTrim p.chatInputValue⟩,
       ⟨"div", "chat-message chat-bot",
         "<strong>AI:</strong> Sorry, I am not able to respond right now."⟩] ∧
    (sendMessage o p).2.chatInputValue = "" ∧
    (sendMessage o p).2.requests = p.requests ++ [chatRequest (jsTrim p.chatInputValue)] := by
  rw [sendMessage_nonempty _ p h]
  rcases hfail with rfl | ⟨status, rfl⟩ | ⟨status, data, e, rfl, hre⟩
  · simp [sendMessageResume_rejected, chatFallback]
  · simp [sendMessageResume_malformed, chatFallback]
  · simp [sendMessageResume_parsed, hre, chatFallback]

theorem sendMessage_failure_fallback_witness :
    jsTrim (ChatPage.mk "hi" [] false [] 0).chatInputValue ≠ "" ∧
    ((sendMessage (.resolved ⟨200, .parsed .null⟩) (ChatPage.mk "hi" [] false [] 0)).1 = .ok () ∧
     (sendMessage (.resolved ⟨200, .parsed .null⟩) (ChatPage.mk "hi" [] false [] 0)).2.chatMessages =
       (ChatPage.mk "hi" [] false [] 0).chatMessages ++
       [⟨"div", "chat-message chat-user",
          "<strong>You:</strong> " ++ jsTrim (ChatPage.mk "hi" [] false [] 0).chatInputValue⟩,
        ⟨"div", "chat-message chat-bot",
          "<strong>AI:</strong> Sorry, I am not able to respond right now."⟩] ∧
     (sendMessage (.resolved ⟨200, .parsed .null⟩) (ChatPage.mk "hi" [] false [] 0)).2.chatInputValue
       = "" ∧
     (sendMessage (.resolved ⟨200, .parsed .null⟩) (ChatPage.mk "hi" [] false [] 0)).2.requests =
       (ChatPage.mk "hi" [] false [] 0).requests ++
         [chatRequest (jsTrim (ChatPage.mk "hi" [] false [] 0).chatInputValue)]) :=
  ⟨by decide,
   sendMessage_failure_fallback (.resolved ⟨200, .parsed .null⟩) (ChatPage.mk "hi" [] false [] 0)
     (by decide) (Or.inr (Or.inr ⟨200, .null, .typeError, rfl, rfl⟩))⟩

/-- C5. The claim asks for the fallback on every response whose status is not 2xx, and
`roadmap.js` does check `response.ok` (lines 33-35); `sendMessage` has no such check. At a
response of status 500 (so `response.ok` is false) whose body is the JSON object with
`reply` equal to `X`, the run ends with the bot message `X`, not with the fallback. -/
theorem sendMessage_non2xx_displays_reply :
    jsTrim (ChatPage.mk "hi" [] false [] 0).chatInputValue ≠ "" ∧
    Response.ok ⟨500, .parsed (.obj [("reply", .str "X")])⟩ = false ∧
    (sendMessage (.resolved ⟨500, .parsed (.obj [("reply", .str "X")])⟩)
        (ChatPage.mk "hi" [] false [] 0)).2.chatMessages =
      [⟨"div", "chat-message chat-user", "<strong>You:</strong> hi"⟩,
       ⟨"div", "chat-message chat-bot", "<strong>AI:</strong> X"⟩] ∧
    (sendMessage (.resolved ⟨500, .parsed (.obj [("reply", .str "X")])⟩)
        (ChatPage.mk "hi" [] false [] 0)).2.chatMessages ≠
      [⟨"div", "chat-message chat-user", "<strong>You:</strong> hi"⟩,
       ⟨"div", "chat-message chat-bot",
         "<strong>AI:</strong> Sorry, I am not able to respond right now."⟩] := by
  decide

/-! ## roadmap.js: properties -/

/-- Validation passes: the handler calls `fetch` on the page showing the "Generating"
placeholder. -/
theorem generateSync_valid (p : RoadmapPage) (hn : jsTrim p.nameValue ≠ "")
    (hb : p.branchValue ≠ "") (hy : p.yearValue ≠ "") (hi : p.interestValue ≠ "") :
    generateSync p =
      .awaiting (jsTrim p.nameValue)
        (roadmapRequest p.branchValue p.yearValue p.interestValue)
        { p with
          roadmapContainer := [.html generatingRoadmap]
          requests := p.requests ++ [roadmapRequest p.branchValue p.yearValue p.interestValue] } := by
  simp [generateSync, hn, hb, hy, hi]

theorem generateClick_valid (o : FetchOutcome) (p : RoadmapPage) (hn : jsTrim p.nameValue ≠ "")
    (hb : p.branchValue ≠ "") (hy : p.yearValue ≠ "") (hi : p.interestValue ≠ "") :
    generateClick o p =
      generateResume (jsTrim p.nameValue) o
        { p with
          roadmapContainer := [.html generatingRoadmap]
          requests := p.requests ++ [roadmapRequest p.branchValue p.yearValue p.interestValue] } := by
  rw [generateClick, generateSync_valid p hn hb hy hi]

theorem textField_of_str (props : List (String × JsValue)) (key s : String)
    (h : lookupProp key props = some (.str s)) : textField (.obj props) key = .ok s := by
  simp [textField, getProp, h, toStr]

theorem textField_of_num (props : List (String × JsValue)) (key : String) (n : JsNumber)
    (h : lookupProp key props = some (.num n)) :
    textField (.obj props) key = .ok n.text := by
  simp [textField, getProp, h, toStr]

theorem joinField_of_strs (props : List (String × JsValue)) (key : String) (l : List String)
    (h : lookupProp key props = some (.arr (l.map .str))) :
    joinField (.obj props) key = .ok (String.intercalate ", " l) := by
  simp [joinField, getProp, h, callJoin_strs]

/-- A well-formed step renders to the block of the specification. -/
theorem renderStep_of_isStep (j : JsValue) (s : RoadmapStep) (h : IsStep j s) :
    (renderStep j).map Node.element = .ok (stepBlock s) := by
  obtain ⟨props, rfl, h1, h2, h3, h4, h5, h6⟩ := h
  simp [renderStep, textField_of_num _ _ _ h1, textField_of_str _ _ _ h2,
    joinField_of_strs _ _ _ h3, joinField_of_strs _ _ _ h4, joinField_of_strs _ _ _ h5,
    textField_of_str _ _ _ h6, stepBlock, stepMarkup, String.append_assoc, bind, Except.bind,
    pure, Except.pure, Except.map]

/-- A field that is not a list makes its substitution throw. -/
theorem joinField_of_fieldNotList (step : JsValue) (key : String) (h : FieldNotList step key) :
    ∃ e, joinField step key = .error e := by
  unfold joinField
  cases hg : getProp step key with
  | error e => exact ⟨e, rfl⟩
  | ok v =>
    cases v with
    | arr items => exact absurd hg (h items)
    | _ => exact ⟨.typeError, rfl⟩

/-- A step with a `learn`, `skills` or `tools` that is not a list makes the callback throw. -/
theorem renderStep_of_fieldNotList (step : JsValue)
    (h : FieldNotList step "learn" ∨ FieldNotList step "skills" ∨ FieldNotList step "tools") :
    ∃ e, renderStep step = .error e := by
  unfold renderStep
  simp only [bind, Except.bind, pure, Except.pure]
  cases h1 : textField step "step" with
  | error e => exact ⟨e, rfl⟩
  | ok number =>
  cases h2 : textField step "title" with
  | error e => exact ⟨e, rfl⟩
  | ok title =>
  cases h3 : joinField step "learn" with
  | error e => exact ⟨e, rfl⟩
  | ok learn =>
  cases h4 : joinField step "skills" with
  | error e => exact ⟨e, rfl⟩
  | ok skills =>
  cases h5 : joinField step "tools" with
  | error e => exact ⟨e, rfl⟩
  | ok tools =>
  exfalso
  rcases h with h | h | h
  · obtain ⟨e, he⟩ := joinField_of_fieldNotList _ _ h
    rw [h3] at he
    cases he
  · obtain ⟨e, he⟩ := joinField_of_fieldNotList _ _ h
    rw [h4] at he
    cases he
  · obtain ⟨e, he⟩ := joinField_of_fieldNotList _ _ h
    rw [h5] at he
    cases he

/-- The loop over a well-formed prefix appends one block per step, in order, and goes on
with the rest of the array. -/
theorem forEachStep_wellFormed_append (pre : List JsValue) (ss : List RoadmapStep)
    (h : List.Forall₂ IsStep pre ss) (more : List JsValue) (p : RoadmapPage) :
    forEachStep (pre ++ more) p =
      forEachStep more { p with roadmapContainer := p.roadmapContainer ++ ss.map stepBlock } := by
  induction h generalizing p with
  | nil => simp
  | @cons j s js ss hj _ ih =>
    have hr := renderStep_of_isStep j s hj
    cases hrs : renderStep j with
    | error e => rw [hrs] at hr; cases hr
    | ok stepDiv =>
      rw [hrs] at hr
      have hblock : Node.element stepDiv = stepBlock s := by
        simpa [Except.map] using hr
      simp [forEachStep, hrs, ih, hblock]

/-- The loop changes nothing but the children of the container. -/
theorem forEachStep_frame (steps : List JsValue) (p : RoadmapPage) :
    ∃ c, (forEachStep steps p).2 = { p with roadmapContainer := c } := by
  induction steps generalizing p with
  | nil => exact ⟨p.roadmapContainer, rfl⟩
  | cons step rest ih =>
    cases hr : renderStep step with
    | error e => exact ⟨p.roadmapContainer, by simp [forEachStep, hr]⟩
    | ok stepDiv =>
      obtain ⟨c, hc⟩ := ih { p with roadmapContainer := p.roadmapContainer ++ [.element stepDiv] }
      exact ⟨c, by simp [forEachStep, hr, hc]⟩

/-- After a response with a success status and a parsed body, the `try` block has changed
the children of the container and counted one body read, nothing else. -/
theorem generateTry_frame (name : String) (status : Nat) (data : JsValue) (p : RoadmapPage)
    (hok : Response.ok ⟨status, .parsed data⟩ = true) :
    ∃ c, (generateTry name (.resolved ⟨status, .parsed data⟩) p).2 =
      { p with roadmapContainer := c, bodyReads := p.bodyReads + 1 } := by
  simp only [generateTry, hok]
  cases hg : getProp data "roadmap" with
  | error e => exact ⟨p.roadmapContainer, rfl⟩
  | ok roadmap =>
    cases roadmap with
    | arr steps =>
      obtain ⟨c, hc⟩ := forEachStep_frame steps
        { p with bodyReads := p.bodyReads + 1, roadmapContainer := [.html (greeting name)] }
      exact ⟨c, by simpa using hc⟩
    | _ => exact ⟨[.html (greeting name)], rfl⟩

/-- When the `try` block throws after a success status and a parsed body, the `catch`
branch leaves exactly the "No roadmap available" placeholder. -/
theorem generateResume_of_throw (name : String) (status : Nat) (data : JsValue)
    (p : RoadmapPage) (e : JsError) (hok : Response.ok ⟨status, .parsed data⟩ = true)
    (hthrow : (generateTry name (.resolved ⟨status, .parsed data⟩) p).1 = some e) :
    generateResume name (.resolved ⟨status, .parsed data⟩) p =
      (.ok (), { p with roadmapContainer := [.html noRoadmapAvailable], bodyReads := p.bodyReads + 1 }) := by
  obtain ⟨c, hc⟩ := generateTry_frame name status data p hok
  unfold generateResume
  rcases hT : generateTry name (.resolved ⟨status, .parsed data⟩) p with ⟨r, q⟩
  rw [hT] at hthrow hc
  simp only at hthrow hc
  subst hthrow
  subst hc
  rfl

/-- The `try` block on an array made of a well-formed prefix and a step with a field that is
not a list: it throws, with the greeting and the blocks of the prefix in the container. -/
theorem generateTry_bad_step (name : String) (status : Nat) (data : JsValue) (p : RoadmapPage)
    (pre : List JsValue) (ss : List RoadmapStep) (bad : JsValue) (rest : List JsValue)
    (hok : Response.ok ⟨status, .parsed data⟩ = true)
    (hroad : getProp data "roadmap" = .ok (.arr (pre ++ bad :: rest)))
    (hpre : List.Forall₂ IsStep pre ss)
    (hbad : FieldNotList bad "learn" ∨ FieldNotList bad "skills" ∨ FieldNotList bad "tools") :
    ∃ e, generateTry name (.resolved ⟨status, .parsed data⟩) p =
      (some e, { p with
        roadmapContainer := .html (greeting name) :: ss.map stepBlock
        bodyReads := p.bodyReads + 1 }) := by
  obtain ⟨e, he⟩ := renderStep_of_fieldNotList bad hbad
  refine ⟨e, ?_⟩
  simp only [generateTry, hok, hroad]
  rw [forEachStep_wellFormed_append pre ss hpre]
  simp [forEachStep, he]

/-- The `try` block when `data.roadmap` is not a list: it throws. -/
theorem generateTry_not_list (name : String) (status : Nat) (data : JsValue) (p : RoadmapPage)
    (hok : Response.ok ⟨status, .parsed data⟩ = true) (h : FieldNotList data "roadmap") :
    ∃ e, (generateTry name (.resolved ⟨status, .parsed data⟩) p).1 = some e := by
  simp only [generateTry, hok]
  cases hg : getProp data "roadmap" with
  | error e => exact ⟨e, rfl⟩
  | ok roadmap =>
    cases roadmap with
    | arr steps => exact absurd hg (h steps)
    | _ => exact ⟨.typeError, rfl⟩

theorem stepBlock_eq_stepMarkup (s : RoadmapStep) :
    stepBlock s =
      .element ⟨"div", "roadmap-step",
        stepMarkup s.step.text s.title (String.intercalate ", " s.learn)
          (String.intercalate ", " s.skills) (String.intercalate ", " s.tools) s.outcome⟩ := by
  unfold stepBlock stepMarkup
  rfl

theorem domOfNode_div (className markup : String) (kids : List Dom)
    (hp : parseFragment markup = some kids) :
    domOfNode (.element ⟨"div", className, markup⟩) = some [.elem "div" className kids] := by
  unfold domOfNode
  simp only [hp]
  rfl

/-- A block whose texts hold no markup stands for the tree of the specification. -/
theorem domOfNode_stepBlock (s : RoadmapStep) (h : s.plain = true) :
    domOfNode (stepBlock s) = some [stepBlockDom s] := by
  unfold RoadmapStep.plain at h
  simp only [Bool.and_eq_true] at h
  obtain ⟨⟨⟨⟨⟨h1, h2⟩, h3⟩, h4⟩, h5⟩, h6⟩ := h
  rw [stepBlock_eq_stepMarkup]
  exact domOfNode_div _ _ _ (parseFragment_stepMarkup _ _ _ _ _ _ h1 h2
    (plainText_intercalate _ h3) (plainText_intercalate _ h4) (plainText_intercalate _ h5) h6)

/-- Blocks whose texts hold no markup stand for one tree each, in order. -/
theorem domOfContainer_blocks (ss : List RoadmapStep) (h : ∀ s ∈ ss, s.plain = true) :
    domOfContainer (ss.map stepBlock) = some (ss.map stepBlockDom) := by
  induction ss with
  | nil => rfl
  | cons s rest ih =>
    have hs := domOfNode_stepBlock s (h s (List.mem_cons_self s rest))
    have hrest := ih (fun x hx => h x (List.mem_cons_of_mem s hx))
    simp [domOfContainer, hs, hrest]

/-- C6. When the name is empty after trimming, or the branch, year or interest value is
the empty string, the click handler returns at line 14 without calling `fetch`: the container
holds exactly the "Please fill all fields." placeholder, whatever it held before, and the
rest of the page (the requests issued among it) is unchanged. -/
theorem generate_validation_placeholder (o : FetchOutcome) (p : RoadmapPage)
    (h : jsTrim p.nameValue = "" ∨ p.branchValue = "" ∨ p.yearValue = "" ∨
      p.interestValue = "") :
    generateSync p =
      .returned { p with roadmapContainer := [.html "<p class='placeholder'>Please fill all fields.</p>"] } ∧
    generateClick o p =
      (.ok (), { p with roadmapContainer := [.html "<p class='placeholder'>Please fill all fields.</p>"] }) := by
  have hs : generateSync p =
      .returned { p with roadmapContainer := [.html "<p class='placeholder'>Please fill all fields.</p>"] } := by
    rcases h with h | h | h | h <;> simp [generateSync, h, fillAllFields]
  exact ⟨hs, by rw [generateClick, hs]⟩

theorem generate_validation_placeholder_witness :
    (jsTrim blankNamePage.nameValue = "" ∨ blankNamePage.branchValue = "" ∨
      blankNamePage.yearValue = "" ∨ blankNamePage.interestValue = "") ∧
    (generateSync blankNamePage =
      .returned { blankNamePage with
        roadmapContainer := [.html "<p class='placeholder'>Please fill all fields.</p>"] } ∧
     generateClick .rejected blankNamePage =
      (.ok (), { blankNamePage with
        roadmapContainer := [.html "<p class='placeholder'>Please fill all fields.</p>"] })) :=
  ⟨Or.inl (by decide),
   generate_validation_placeholder .rejected blankNamePage (Or.inl (by decide))⟩

set_option maxRecDepth 100000 in
/-- C7 as stated fails: the name is put into the greeting markup unescaped. With a name
that holds markup and a response with one well-formed step, the container ends with four
children, two paragraphs and two `div`s of class `roadmap-step`, not with one greeting line
and one step block. -/
theorem generate_markup_name_counterexample :
    (jsTrim markupNamePage.nameValue ≠ "" ∧ markupNamePage.branchValue ≠ "" ∧
      markupNamePage.yearValue ≠ "" ∧ markupNamePage.interestValue ≠ "") ∧
    Response.ok ⟨200, .parsed (.obj [("roadmap", .arr [sampleStepJson])])⟩ = true ∧
    (domOfContainer
        (generateClick (.resolved ⟨200, .parsed (.obj [("roadmap", .arr [sampleStepJson])])⟩)
          markupNamePage).2.roadmapContainer).map (List.map Dom.tagAndClass) =
      some [some ("p", ""), some ("div", "roadmap-step"), some ("p", ""),
            some ("div", "roadmap-step")] ∧
    (domOfContainer
        (generateClick (.resolved ⟨200, .parsed (.obj [("roadmap", .arr [sampleStepJson])])⟩)
          markupNamePage).2.roadmapContainer).map (List.map Dom.tagAndClass) ≠
      some [some ("p", ""), some ("div", "roadmap-step")] := by
  decide

/-- C7 as amended. When validation passes (the name is non-empty after trimming, the three
other values are non-empty), the status is a success status and the parsed body is an object
whose `roadmap` is a list of N well-formed steps, the run ends normally; the container was
assigned the greeting markup with the trimmed name and then got exactly N elements of class
`roadmap-step` appended, in the order of the list, the i-th with the markup showing the
number, title, joined lists and outcome of the i-th step; the prior content and the
"Generating" placeholder are gone. The name and the texts of the steps are not escaped: when
none of them holds markup, the container is, as a tree, exactly one greeting paragraph
followed by exactly N step blocks. -/
theorem generate_success_rendering (p : RoadmapPage) (status : Nat)
    (props : List (String × JsValue)) (steps : List JsValue) (ss : List RoadmapStep)
    (hn : jsTrim p.nameValue ≠ "") (hb : p.branchValue ≠ "") (hy : p.yearValue ≠ "")
    (hi : p.interestValue ≠ "")
    (hok : Response.ok ⟨status, .parsed (.obj props)⟩ = true)
    (hroad : lookupProp "roadmap" props = some (.arr steps))
    (hsteps : List.Forall₂ IsStep steps ss) :
    generateClick (.resolved ⟨status, .parsed (.obj props)⟩) p =
      (.ok (), { p with
        roadmapContainer :=
          .html ("<p><strong>Hey " ++ jsTrim p.nameValue ++
              ", here’s your roadmap 👇</strong></p>")
            :: ss.map stepBlock
        requests := p.requests ++ [roadmapRequest p.branchValue p.yearValue p.interestValue]
        bodyReads := p.bodyReads + 1 }) ∧
    (ss.map stepBlock).length = steps.length ∧
    (plainText (jsTrim p.nameValue) = true → (∀ s ∈ ss, s.plain = true) →
      domOfContainer
          (generateClick (.resolved ⟨status, .parsed (.obj props)⟩) p).2.roadmapContainer =
        some (greetingDom (jsTrim p.nameValue) :: ss.map stepBlockDom)) := by
  have hrun : generateClick (.resolved ⟨status, .parsed (.obj props)⟩) p =
      (.ok (), { p with
        roadmapContainer :=
          .html ("<p><strong>Hey " ++ jsTrim p.nameValue ++
              ", here’s your roadmap 👇</strong></p>")
            :: ss.map stepBlock
        requests := p.requests ++ [roadmapRequest p.branchValue p.yearValue p.interestValue]
        bodyReads := p.bodyReads + 1 }) := by
    rw [generateClick_valid _ p hn hb hy hi]
    have hloop := forEachStep_wellFormed_append steps ss hsteps []
    simp only [List.append_nil] at hloop
    simp [generateResume, generateTry, hok, getProp, hroad, hloop, forEachStep, greeting]
  refine ⟨hrun, by simp [hsteps.length_eq], fun hname hplain => ?_⟩
  rw [hrun]
  have hg := parseFragment_greeting (jsTrim p.nameValue) hname
  have hblocks := domOfContainer_blocks ss hplain
  simp only [domOfContainer, domOfNode]
  rw [show ("<p><strong>Hey " ++ jsTrim p.nameValue ++ ", here’s your roadmap 👇</strong></p>")
      = greeting (jsTrim p.nameValue) from rfl, hg, hblocks]
  rfl

set_option maxRecDepth 100000 in
theorem generate_success_rendering_witness :
    (jsTrim samplePage.nameValue ≠ "" ∧ samplePage.branchValue ≠ "" ∧
      samplePage.yearValue ≠ "" ∧ samplePage.interestValue ≠ "") ∧
    Response.ok ⟨200, .parsed (.obj [("roadmap", .arr [sampleStepJson, secondStepJson])])⟩
      = true ∧
    (generateClick
        (.resolved ⟨200, .parsed (.obj [("roadmap", .arr [sampleStepJson, secondStepJson])])⟩)
        samplePage).2.roadmapContainer =
      [.html "<p><strong>Hey Asha, here’s your roadmap 👇</strong></p>",
       .element ⟨"div", "roadmap-step",
         "\n        <h3>Step 1: Basics</h3>" ++
         "\n        <p><strong>What to learn:</strong> Python, Maths</p>" ++
         "\n        <p><strong>Skills:</strong> Coding</p>" ++
         "\n        <p><strong>Tools:</strong> </p>" ++
         "\n        <p><strong>Outcome:</strong> Ready</p>" ++
         "\n      "⟩,
       .element ⟨"div", "roadmap-step",
         "\n        <h3>Step 2.5: Projects</h3>" ++
         "\n        <p><strong>What to learn:</strong> Git</p>" ++
         "\n        <p><strong>Skills:</strong> Design, Testing</p>" ++
         "\n        <p><strong>Tools:</strong> VS Code</p>" ++
         "\n        <p><strong>Outcome:</strong> Portfolio</p>" ++
         "\n      "⟩] ∧
    domOfContainer
        (generateClick
          (.resolved ⟨200, .parsed (.obj [("roadmap", .arr [sampleStepJson, secondStepJson])])⟩)
          samplePage).2.roadmapContainer =
      some (greetingDom (jsTrim samplePage.nameValue) :: [sampleStep, secondStep].map stepBlockDom) :=
  have run := generate_success_rendering samplePage 200
    [("roadmap", .arr [sampleStepJson, secondStepJson])]
    [sampleStepJson, secondStepJson] [sampleStep, secondStep]
    (by decide) (by decide) (by decide) (by decide) (by decide) rfl
    (List.Forall₂.cons ⟨_, rfl, rfl, rfl, rfl, rfl, rfl, rfl⟩
      (List.Forall₂.cons ⟨_, rfl, rfl, rfl, rfl, rfl, rfl, rfl⟩ List.Forall₂.nil))
  ⟨⟨by decide, by decide, by decide, by decide⟩, by decide,
   (congrArg (fun r => r.2.roadmapContainer) run.1).trans (by decide),
   run.2.2 (by decide) (by decide)⟩

/-- C8. When validation passes and the response has a failure status (`response.ok` is
false), whatever its body, the run ends normally (no exception escapes) and the container
holds exactly the "No roadmap available for selected options." placeholder: no greeting, no
step block. The body is never read: the count of `response.json()` calls is unchanged. -/
theorem generate_failure_status (p : RoadmapPage) (status : Nat) (body : BodyOutcome)
    (hn : jsTrim p.nameValue ≠ "") (hb : p.branchValue ≠ "") (hy : p.yearValue ≠ "")
    (hi : p.interestValue ≠ "") (hok : Response.ok ⟨status, body⟩ = false) :
    generateClick (.resolved ⟨status, body⟩) p =
      (.ok (), { p with
        roadmapContainer :=
          [.html "<p class='placeholder'>No roadmap available for selected options.</p>"]
        requests := p.requests ++ [roadmapRequest p.branchValue p.yearValue p.interestValue]
        bodyReads := p.bodyReads }) := by
  rw [generateClick_valid _ p hn hb hy hi]
  simp [generateResume, generateTry, hok, noRoadmapAvailable]

theorem generate_failure_status_witness :
    (jsTrim samplePage.nameValue ≠ "" ∧ samplePage.branchValue ≠ "" ∧
      samplePage.yearValue ≠ "" ∧ samplePage.interestValue ≠ "") ∧
    Response.ok ⟨404, .parsed (.obj [("roadmap", .arr [sampleStepJson])])⟩ = false ∧
    generateClick (.resolved ⟨404, .parsed (.obj [("roadmap", .arr [sampleStepJson])])⟩)
        samplePage =
      (.ok (), { samplePage with
        roadmapContainer :=
          [.html "<p class='placeholder'>No roadmap available for selected options.</p>"]
        requests := samplePage.requests ++
          [roadmapRequest samplePage.branchValue samplePage.yearValue samplePage.interestValue]
        bodyReads := samplePage.bodyReads }) :=
  ⟨⟨by decide, by decide, by decide, by decide⟩, by decide,
   generate_failure_status samplePage 404 (.parsed (.obj [("roadmap", .arr [sampleStepJson])]))
     (by decide) (by decide) (by decide) (by decide) (by decide)⟩

/-- C9. When validation passes, the run issues exactly one request, whatever the
environment answers: a POST to the fixed `/get-roadmap` address whose body has the keys
`branch`, `year` and `interest` with the form values as they are (untrimmed). The name is
not part of it: two runs that differ in the (non-empty after trimming) name and in the
answer they get issue the same requests. -/
theorem generate_request_without_name (p : RoadmapPage) (n1 n2 : String)
    (o1 o2 : FetchOutcome)
    (hn1 : jsTrim n1 ≠ "") (hn2 : jsTrim n2 ≠ "") (hb : p.branchValue ≠ "")
    (hy : p.yearValue ≠ "") (hi : p.interestValue ≠ "") :
    (generateClick o1 { p with nameValue := n1 }).2.requests =
      p.requests ++
        [⟨"http://127.0.0.1:5000/get-roadmap", "POST", [("Content-Type", "application/json")],
          .obj [("branch", .str p.branchValue), ("year", .str p.yearValue),
                ("interest", .str p.interestValue)]⟩] ∧
    (generateClick o1 { p with nameValue := n1 }).2.requests =
      (generateClick o2 { p with nameValue := n2 }).2.requests := by
  have key : ∀ (n : String) (o : FetchOutcome), jsTrim n ≠ "" →
      (generateClick o { p with nameValue := n }).2.requests =
        p.requests ++ [roadmapRequest p.branchValue p.yearValue p.interestValue] := by
    intro n o hn
    rw [generateClick_valid o { p with nameValue := n } hn hb hy hi]
    cases o with
    | rejected => rfl
    | resolved r =>
      obtain ⟨status, body⟩ := r
      cases hok : Response.ok ⟨status, body⟩ with
      | false => simp [generateResume, generateTry, hok]
      | true =>
        cases body with
        | malformed => simp [generateResume, generateTry, hok]
        | parsed data =>
          obtain ⟨c, hc⟩ := generateTry_frame (jsTrim n) status data
            { p with
              nameValue := n
              roadmapContainer := [.html generatingRoadmap]
              requests := p.requests ++ [roadmapRequest p.branchValue p.yearValue p.interestValue] }
            hok
          unfold generateResume
          rcases hT : generateTry (jsTrim n) (.resolved ⟨status, .parsed data⟩)
            { p with
              nameValue := n
              roadmapContainer := [.html generatingRoadmap]
              requests := p.requests ++ [roadmapRequest p.branchValue p.yearValue p.interestValue] }
            with ⟨r, q⟩
          rw [hT] at hc
          simp only at hc
          subst hc
          cases r <;> rfl
  exact ⟨by rw [key n1 o1 hn1]; rfl, by rw [key n1 o1 hn1, key n2 o2 hn2]⟩

theorem generate_request_without_name_witness :
    (jsTrim "Asha" ≠ "" ∧ jsTrim " Ravi K " ≠ "" ∧ samplePage.branchValue ≠ "" ∧
      samplePage.yearValue ≠ "" ∧ samplePage.interestValue ≠ "") ∧
    ((generateClick .rejected { samplePage with nameValue := "Asha" }).2.requests =
      samplePage.requests ++
        [⟨"http://127.0.0.1:5000/get-roadmap", "POST", [("Content-Type", "application/json")],
          .obj [("branch", .str samplePage.branchValue), ("year", .str samplePage.yearValue),
                ("interest", .str samplePage.interestValue)]⟩] ∧
     (generateClick .rejected { samplePage with nameValue := "Asha" }).2.requests =
      (generateClick (.resolved ⟨200, .malformed⟩)
        { samplePage with nameValue := " Ravi K " }).2.requests) :=
  ⟨⟨by decide, by decide, by decide, by decide, by decide⟩,
   generate_request_without_name samplePage "Asha" " Ravi K " .rejected
     (.resolved ⟨200, .malformed⟩) (by decide) (by decide) (by decide) (by decide) (by decide)⟩

/-- C10. When validation passes, the status is a success status and the parsed body makes
rendering throw (its `roadmap` is missing or not a list, or the array holds a well-formed
prefix followed by a step whose `learn`, `skills` or `tools` is not a list), the run ends
normally and the container holds exactly the "No roadmap available for selected options."
placeholder. In the second case the `try` block had put the greeting and the blocks of the
prefix into the container when it threw; the `catch` branch replaced them. -/
theorem generate_no_partial_rendering (p : RoadmapPage) (status : Nat) (data : JsValue)
    (hn : jsTrim p.nameValue ≠ "") (hb : p.branchValue ≠ "") (hy : p.yearValue ≠ "")
    (hi : p.interestValue ≠ "")
    (hok : Response.ok ⟨status, .parsed data⟩ = true)
    (hbad : FieldNotList data "roadmap" ∨
      ∃ pre ss bad rest,
        getProp data "roadmap" = .ok (.arr (pre ++ bad :: rest)) ∧
        List.Forall₂ IsStep pre ss ∧
        (FieldNotList bad "learn" ∨ FieldNotList bad "skills" ∨ FieldNotList bad "tools")) :
    generateClick (.resolved ⟨status, .parsed data⟩) p =
      (.ok (), { p with
        roadmapContainer :=
          [.html "<p class='placeholder'>No roadmap available for selected options.</p>"]
        requests := p.requests ++ [roadmapRequest p.branchValue p.yearValue p.interestValue]
        bodyReads := p.bodyReads + 1 }) ∧
    ∀ pre ss bad rest,
      getProp data "roadmap" = .ok (.arr (pre ++ bad :: rest)) →
      List.Forall₂ IsStep pre ss →
      (FieldNotList bad "learn" ∨ FieldNotList bad "skills" ∨ FieldNotList bad "tools") →
      (generateTry (jsTrim p.nameValue) (.resolved ⟨status, .parsed data⟩)
        { p with
          roadmapContainer := [.html generatingRoadmap]
          requests := p.requests ++
            [roadmapRequest p.branchValue p.yearValue p.interestValue] }).2.roadmapContainer =
        .html (greeting (jsTrim p.nameValue)) :: ss.map stepBlock := by
  constructor
  · rw [generateClick_valid _ p hn hb hy hi]
    have hthrow : ∃ e, (generateTry (jsTrim p.nameValue) (.resolved ⟨status, .parsed data⟩)
        { p with
          roadmapContainer := [.html generatingRoadmap]
          requests := p.requests ++
            [roadmapRequest p.branchValue p.yearValue p.interestValue] }).1 = some e := by
      rcases hbad with h | ⟨pre, ss, bad, rest, hroad, hpre, hfield⟩
      · exact generateTry_not_list _ _ _ _ hok h
      · obtain ⟨e, he⟩ := generateTry_bad_step (jsTrim p.nameValue) status data
          { p with
            roadmapContainer := [.html generatingRoadmap]
            requests := p.requests ++
              [roadmapRequest p.branchValue p.yearValue p.interestValue] }
          pre ss bad rest hok hroad hpre hfield
        exact ⟨e, by rw [he]⟩
    obtain ⟨e, he⟩ := hthrow
    rw [generateResume_of_throw _ _ _ _ e hok he]
    rfl
  · intro pre ss bad rest hroad hpre hfield
    obtain ⟨e, he⟩ := generateTry_bad_step (jsTrim p.nameValue) status data
      { p with
        roadmapContainer := [.html generatingRoadmap]
        requests := p.requests ++
          [roadmapRequest p.branchValue p.yearValue p.interestValue] }
      pre ss bad rest hok hroad hpre hfield
    rw [he]

theorem generate_no_partial_rendering_witness :
    (jsTrim samplePage.nameValue ≠ "" ∧ samplePage.branchValue ≠ "" ∧
      samplePage.yearValue ≠ "" ∧ samplePage.interestValue ≠ "") ∧
    Response.ok
      ⟨200, .parsed (.obj [("roadmap", .arr ([sampleStepJson] ++ badStepJson :: [sampleStepJson]))])⟩
      = true ∧
    generateClick
        (.resolved ⟨200,
          .parsed (.obj [("roadmap", .arr ([sampleStepJson] ++ badStepJson :: [sampleStepJson]))])⟩)
        samplePage =
      (.ok (), { samplePage with
        roadmapContainer :=
          [.html "<p class='placeholder'>No roadmap available for selected options.</p>"]
        requests := samplePage.requests ++
          [roadmapRequest samplePage.branchValue samplePage.yearValue samplePage.interestValue]
        bodyReads := samplePage.bodyReads + 1 }) :=
  ⟨⟨by decide, by decide, by decide, by decide⟩, by decide,
   (generate_no_partial_rendering samplePage 200
     (.obj [("roadmap", .arr ([sampleStepJson] ++ badStepJson :: [sampleStepJson]))])
     (by decide) (by decide) (by decide) (by decide) (by decide)
     (Or.inr ⟨[sampleStepJson], [sampleStep], badStepJson, [sampleStepJson], rfl,
       List.Forall₂.cons ⟨_, rfl, rfl, rfl, rfl, rfl, rfl, rfl⟩ List.Forall₂.nil,
       Or.inr (Or.inl (fun items hitems => by
         simp [getProp, badStepJson, lookupProp] at hitems))⟩)).1⟩

end CareerPilot
